import Mathlib

/-!
Shallow embedding of the agentic tool-orchestration loop of
`agentic_processing.py` and of the tool bodies of `tools_langchain.py`
(repository `adrutililly/agentic_ai`).

Python strings are modelled as `String` / `List Char`; Python exceptions as
`Except String`; the external model client and the external libraries
(`wikipedia`, `ast`, `re`) appear as explicit oracle parameters.  The call
`json.loads` from the Python standard library is modelled by an executable
JSON reader (`jsonLoads`) following the JSON grammar that `json.loads`
accepts by default.
-/

namespace Agentic

/-! ### Python string primitives on `List Char` -/

/-- Index of the first occurrence of `c` (Python `str.find`; only used when
the occurrence exists). -/
def pyFindIdx : List Char → Char → Nat
  | [], _ => 0
  | a :: rest, c => if a = c then 0 else pyFindIdx rest c + 1

/-- Index of the last occurrence of `c` (Python `str.rfind`; only used when
the occurrence exists). -/
def pyRFindIdx : List Char → Char → Nat
  | [], _ => 0
  | _ :: rest, c => if c ∈ rest then pyRFindIdx rest c + 1 else 0

/-- Python slice `s[a:b]` (with `0 ≤ a`, `0 ≤ b`). -/
def pySlice (l : List Char) (a b : Nat) : List Char :=
  (l.take b).drop a

/-- Python `str.replace(pat, rep)`: replace all non-overlapping occurrences,
scanning left to right.  Only called with a non-empty `pat`. -/
def replaceAll (pat rep : List Char) : List Char → List Char
  | [] => []
  | c :: cs =>
    if pat.isPrefixOf (c :: cs) ∧ pat ≠ [] then
      rep ++ replaceAll pat rep ((c :: cs).drop pat.length)
    else
      c :: replaceAll pat rep cs
termination_by l => l.length
decreasing_by
  · simp only [List.length_drop, List.length_cons]
    have hp : 1 ≤ pat.length := by
      rcases pat with _ | ⟨p, ps⟩
      · exact absurd rfl (by tauto)
      · simp
    omega
  · simp

/-- Characters stripped by Python `str.strip()` with no argument. -/
def pyIsSpace (c : Char) : Bool :=
  c = ' ' || c = '\t' || c = '\n' || c = '\r' || c = '\x0b' || c = '\x0c'

/-- Python `str.strip()`. -/
def pyStrip (l : List Char) : List Char :=
  ((l.dropWhile pyIsSpace).reverse.dropWhile pyIsSpace).reverse

/-- Python `str.rstrip(charset)`. -/
def pyRStripSet (l : List Char) (charset : List Char) : List Char :=
  (l.reverse.dropWhile (fun c => charset.contains c)).reverse

/-- Python `str.lower()` (ASCII range, which covers every key of the unit
tables and the tool names). -/
def pyLower (s : String) : String :=
  String.mk (s.data.map Char.toLower)

/-- Python `", ".join(l)`. -/
def joinComma : List String → String
  | [] => ""
  | [s] => s
  | s :: rest => s ++ ", " ++ joinComma rest

/-! ### JSON values as produced by `json.loads` -/

/-- JSON values.  Numbers keep their source lexeme: no claim depends on
numeric values, only on the shape of the parsed data. -/
inductive Json where
  | null
  | bool (b : Bool)
  | num (lexeme : String)
  | str (s : String)
  | arr (elems : List Json)
  | obj (fields : List (String × Json))

/-- Python dictionary lookup on the field list produced by `json.loads`:
with duplicate keys the last binding wins, as in a Python dict built in
insertion order. -/
def pyLookup {α : Type} : List (String × α) → String → Option α
  | [], _ => none
  | (k, v) :: rest, key =>
    match pyLookup rest key with
    | some r => some r
    | none => if k = key then some v else none

/-! ### Executable JSON reader (model of `json.loads`) -/

/-- JSON whitespace accepted between tokens. -/
def isJsonWs (c : Char) : Bool :=
  c = ' ' || c = '\t' || c = '\n' || c = '\r'

/-- Skip JSON whitespace. -/
def skipWs : List Char → List Char
  | [] => []
  | c :: cs => if isJsonWs c then skipWs cs else c :: cs

/-- Value of one hexadecimal digit. -/
def hexDigitVal (c : Char) : Option Nat :=
  if '0' ≤ c ∧ c ≤ '9' then some (c.toNat - '0'.toNat)
  else if 'a' ≤ c ∧ c ≤ 'f' then some (c.toNat - 'a'.toNat + 10)
  else if 'A' ≤ c ∧ c ≤ 'F' then some (c.toNat - 'A'.toNat + 10)
  else none

/-- Value of four hexadecimal digits. -/
def hex4Val (a b c d : Char) : Option Nat := do
  let va ← hexDigitVal a
  let vb ← hexDigitVal b
  let vc ← hexDigitVal c
  let vd ← hexDigitVal d
  pure (((va * 16 + vb) * 16 + vc) * 16 + vd)

/-- Body of a JSON string after the opening quote, in strict mode (raw
control characters rejected, standard escapes).  Lone surrogates from
`\uXXXX` are replaced by U+FFFD: Python keeps them as lone surrogate code
units, which a Lean `Char` cannot represent; no claim depends on them. -/
def parseJsonStrBody : Nat → List Char → List Char → Option (String × List Char)
  | 0, _, _ => none
  | fuel + 1, acc, cs =>
    match cs with
    | [] => none
    | '"' :: rest => some (String.mk acc.reverse, rest)
    | '\\' :: esc =>
      match esc with
      | 'u' :: a :: b :: c :: d :: rest =>
        match hex4Val a b c d with
        | none => none
        | some v =>
          if 0xD800 ≤ v ∧ v < 0xDC00 then
            match rest with
            | '\\' :: 'u' :: a2 :: b2 :: c2 :: d2 :: rest2 =>
              match hex4Val a2 b2 c2 d2 with
              | some v2 =>
                if 0xDC00 ≤ v2 ∧ v2 < 0xE000 then
                  parseJsonStrBody fuel
                    (Char.ofNat (0x10000 + (v - 0xD800) * 0x400 + (v2 - 0xDC00)) :: acc) rest2
                else parseJsonStrBody fuel ('\uFFFD' :: acc) rest
              | none => parseJsonStrBody fuel ('\uFFFD' :: acc) rest
            | _ => parseJsonStrBody fuel ('\uFFFD' :: acc) rest
          else if 0xDC00 ≤ v ∧ v < 0xE000 then
            parseJsonStrBody fuel ('\uFFFD' :: acc) rest
          else
            parseJsonStrBody fuel (Char.ofNat v :: acc) rest
      | '"' :: rest => parseJsonStrBody fuel ('"' :: acc) rest
      | '\\' :: rest => parseJsonStrBody fuel ('\\' :: acc) rest
      | '/' :: rest => parseJsonStrBody fuel ('/' :: acc) rest
      | 'b' :: rest => parseJsonStrBody fuel ('\x08' :: acc) rest
      | 'f' :: rest => parseJsonStrBody fuel ('\x0c' :: acc) rest
      | 'n' :: rest => parseJsonStrBody fuel ('\n' :: acc) rest
      | 'r' :: rest => parseJsonStrBody fuel ('\r' :: acc) rest
      | 't' :: rest => parseJsonStrBody fuel ('\t' :: acc) rest
      | _ => none
    | c :: rest =>
      if c.toNat < 32 then none else parseJsonStrBody fuel (c :: acc) rest

/-- Longest digit span at the head of the input. -/
def digitSpan : List Char → List Char × List Char
  | [] => ([], [])
  | c :: cs =>
    if c.isDigit then
      let (d, r) := digitSpan cs
      (c :: d, r)
    else ([], c :: cs)

/-- JSON number: `-? (0 | [1-9][0-9]*) (.[0-9]+)? ([eE][+-]?[0-9]+)?`.
Returns the lexeme. -/
def parseJsonNumber (cs : List Char) : Option (String × List Char) :=
  let (sign, cs1) :=
    match cs with
    | '-' :: rest => (['-'], rest)
    | _ => (([] : List Char), cs)
  match digitSpan cs1 with
  | ([], _) => none
  | (intDigits, cs2) =>
    if intDigits.length > 1 ∧ intDigits.headD '0' = '0' then none
    else
      let (fracPart, cs3) :=
        match cs2 with
        | '.' :: rest =>
          match digitSpan rest with
          | ([], _) => (none, cs2)
          | (fd, r) => (some ('.' :: fd), r)
        | _ => (none, cs2)
      match fracPart, cs2 with
      | none, '.' :: _ => none
      | _, _ =>
        let fracChars := fracPart.getD []
        let (expPart, cs4) :=
          match cs3 with
          | e :: rest =>
            if e = 'e' ∨ e = 'E' then
              let (sgn, rest2) :=
                match rest with
                | '+' :: r => (['+'], r)
                | '-' :: r => (['-'], r)
                | _ => (([] : List Char), rest)
              match digitSpan rest2 with
              | ([], _) => (none, cs3)
              | (ed, r) => (some (e :: (sgn ++ ed)), r)
            else (none, cs3)
          | [] => (none, cs3)
        match expPart, cs3 with
        | none, e :: _ =>
          if e = 'e' ∨ e = 'E' then none
          else some (String.mk (sign ++ intDigits ++ fracChars), cs3)
        | none, [] => some (String.mk (sign ++ intDigits ++ fracChars), cs3)
        | some ec, _ => some (String.mk (sign ++ intDigits ++ fracChars ++ ec), cs4)

mutual

/-- One JSON value, leading whitespace allowed.  `json.loads` also accepts
the constants `NaN`, `Infinity` and `-Infinity` by default. -/
def parseJsonValue : Nat → List Char → Option (Json × List Char)
  | 0, _ => none
  | fuel + 1, cs =>
    match skipWs cs with
    | [] => none
    | '{' :: rest =>
      (match skipWs rest with
       | '}' :: rest2 => some (Json.obj [], rest2)
       | other => parseJsonMembers fuel other [])
    | '[' :: rest =>
      (match skipWs rest with
       | ']' :: rest2 => some (Json.arr [], rest2)
       | other => parseJsonElems fuel other [])
    | '"' :: rest =>
      (match parseJsonStrBody (rest.length + 1) [] rest with
       | some (s, rest2) => some (Json.str s, rest2)
       | none => none)
    | 't' :: 'r' :: 'u' :: 'e' :: rest => some (Json.bool true, rest)
    | 'f' :: 'a' :: 'l' :: 's' :: 'e' :: rest => some (Json.bool false, rest)
    | 'n' :: 'u' :: 'l' :: 'l' :: rest => some (Json.null, rest)
    | 'N' :: 'a' :: 'N' :: rest => some (Json.num "NaN", rest)
    | 'I' :: 'n' :: 'f' :: 'i' :: 'n' :: 'i' :: 't' :: 'y' :: rest =>
      some (Json.num "Infinity", rest)
    | '-' :: 'I' :: 'n' :: 'f' :: 'i' :: 'n' :: 'i' :: 't' :: 'y' :: rest =>
      some (Json.num "-Infinity", rest)
    | other =>
      (match parseJsonNumber other with
       | some (lex, rest) => some (Json.num lex, rest)
       | none => none)

/-- Members of an object, positioned at the start of a key string. -/
def parseJsonMembers : Nat → List Char → List (String × Json) →
    Option (Json × List Char)
  | 0, _, _ => none
  | fuel + 1, cs, acc =>
    match cs with
    | '"' :: rest =>
      (match parseJsonStrBody (rest.length + 1) [] rest with
       | some (key, rest2) =>
         (match skipWs rest2 with
          | ':' :: rest3 =>
            (match parseJsonValue fuel rest3 with
             | some (v, rest4) =>
               (match skipWs rest4 with
                | ',' :: rest5 =>
                  parseJsonMembers fuel (skipWs rest5) (acc ++ [(key, v)])
                | '}' :: rest5 => some (Json.obj (acc ++ [(key, v)]), rest5)
                | _ => none)
             | none => none)
          | _ => none)
       | none => none)
    | _ => none

/-- Elements of an array, positioned at the start of a value. -/
def parseJsonElems : Nat → List Char → List Json → Option (Json × List Char)
  | 0, _, _ => none
  | fuel + 1, cs, acc =>
    match parseJsonValue fuel cs with
    | some (v, rest) =>
      (match skipWs rest with
       | ',' :: rest2 => parseJsonElems fuel rest2 (acc ++ [v])
       | ']' :: rest2 => some (Json.arr (acc ++ [v]), rest2)
       | _ => none)
    | none => none

end

/-- Model of `json.loads`: one JSON document, nothing but whitespace after
it.  `none` models a raised `JSONDecodeError`. -/
def jsonLoads (cs : List Char) : Option Json :=
  match parseJsonValue (cs.length + 1) cs with
  | some (v, rest) => if skipWs rest = [] then some v else none
  | none => none

/-! ### Python `str()` of parsed JSON values -/

mutual

/-- Python `repr()` of a value produced by `json.loads`.  Number lexemes
stand in for Python float/int rendering: no claim depends on numeric
rendering. -/
def pyRepr : Json → String
  | .null => "None"
  | .bool b => if b then "True" else "False"
  | .num lex => lex
  | .str s => "\x27" ++ s ++ "\x27"
  | .arr xs => "[" ++ pyReprElems xs ++ "]"
  | .obj fs => "\x7b" ++ pyReprFields fs ++ "\x7d"

/-- Comma-separated `repr`s of list elements. -/
def pyReprElems : List Json → String
  | [] => ""
  | [x] => pyRepr x
  | x :: xs => pyRepr x ++ ", " ++ pyReprElems xs

/-- Comma-separated `repr`s of dict entries. -/
def pyReprFields : List (String × Json) → String
  | [] => ""
  | [(k, v)] => "\x27" ++ k ++ "\x27: " ++ pyRepr v
  | (k, v) :: fs => "\x27" ++ k ++ "\x27: " ++ pyRepr v ++ ", " ++ pyReprFields fs

end

/-- Python `str()` of a value produced by `json.loads` (used by the
f-strings in `run_task`). -/
def pyStr : Json → String
  | .str s => s
  | other => pyRepr other

/-! ### `parse_llm_response` (agentic_processing.py, lines 60-88) -/

/-- The result dictionary of `parse_llm_response`: `type` is the string
stored under the `"type"` key; the other keys are present depending on the
branch taken. -/
structure ParsedResponse where
  type : String
  tool : Option Json := none
  input : Option Json := none
  content : Option String := none

/-- The substring `response[start:end]` with `start = response.find("{")`
and `end = response.rfind("}") + 1`. -/
def jsonCandidate (s : String) : List Char :=
  pySlice s.data (pyFindIdx s.data '{') (pyRFindIdx s.data '}' + 1)

/-- `if "tool" in tool_call and "input" in tool_call` followed by the two
indexings: both lookups must succeed. -/
def pairFields : Option Json → Option Json → Option (Json × Json)
  | some t, some i => some (t, i)
  | _, _ => none

/-- The field check applied to the parsed value.  A non-object cannot pass
it: on a non-dict the Python membership test either raises (caught by the
bare `except`) or fails. -/
def objToolFields : Json → Option (Json × Json)
  | .obj fields => pairFields (pyLookup fields "tool") (pyLookup fields "input")
  | _ => none

/-- The `try` block of `parse_llm_response`: extract the first-`\x7b` to
last-`\x7d` span, run `json.loads` on it, and keep the result only when it
is an object with both a `tool` and an `input` field.  `none` models every
silenced failure (`except: pass`). -/
def extractToolCall (s : String) : Option (Json × Json) :=
  if '{' ∈ s.data ∧ '}' ∈ s.data then
    match jsonLoads (jsonCandidate s) with
    | some j => objToolFields j
    | none => none
  else none

/-- `parse_llm_response` (agentic_processing.py lines 60-88): classify raw
model output as a tool call or a final answer.  Total: the Python original
catches every exception and falls through to the final-answer dictionary. -/
def parse_llm_response (response : String) : ParsedResponse :=
  match extractToolCall response with
  | some (t, i) => { type := "tool_call", tool := some t, input := some i }
  | none => { type := "final_answer", content := some response }

/-! ### `run_task` (agentic_processing.py, lines 90-246)

The model client is an oracle `llm : Nat → List Message → Except String
String`: argument one is the sequence number of the `llm.invoke` call made
during the task (the loop makes one call per round, so round `i` performs
call `i`, and the forced-final call is call `max_iterations`); a `.error`
result models an exception raised by `llm.invoke`.  A tool callable is an
oracle `Json → Except String String` whose `.error` models an exception
raised by the tool.  The Python `print`/`logging` side effects are not
modelled. -/

/-- One chat message, as in the dictionaries built by `run_task`. -/
structure Message where
  role : String
  content : String

/-- A tool callable (`tool.func`); `.error e` models an exception whose
`str()` is `e`. -/
abbrev ToolFn := Json → Except String String

/-- The tool registry `tool_map = \x7btool.name: tool for tool in tools\x7d`. -/
abbrev ToolMap := List (String × ToolFn)

/-- The model client oracle (call sequence number, messages). -/
abbrev LLM := Nat → List Message → Except String String

/-- The constant `max_iterations = 3` of `run_task`. -/
def max_iterations : Nat := 3

/-- `AGENTIC_SYSTEM_PROMPT` (agentic_processing.py lines 36-58). -/
def AGENTIC_SYSTEM_PROMPT : String :=
  "You are an AI assistant with access to tools. When a user asks a question, you should:\n\n1. Analyze what the user needs\n2. Decide which tool(s) to use\n3. Call the appropriate tool(s)\n4. Provide a helpful response based on the tool results\n\nAvailable tools:\n- wikipedia_search: Search Wikipedia for information about topics, people, places, concepts\n- calculator: Perform mathematical calculations (supports +, -, *, /, **, parentheses)\n- unit_converter: Convert between units (format: \"VALUE UNIT to UNIT\", e.g., \"100 km to miles\")\n\nTo use a tool, respond with a JSON object like this:\n\x7b\n  \"tool\": \"tool_name\",\n  \"input\": \"tool input\"\n\x7d\n\nIf you need multiple tools, you can call them sequentially.\n\nIf you have enough information to answer directly without tools, just provide the answer.\n\nBe helpful, concise, and accurate."

/-- The `\x7b entry \x7d` lines rendered into a prompt:
`for entry in conversation_history: prompt += f"- \x7bentry\x7d\n"`. -/
def renderHistory : List String → String
  | [] => ""
  | e :: es => "- " ++ e ++ "\n" ++ renderHistory es

/-- The per-round prompt (lines 149-159): round 0 is the user question with
a fixed instruction and no history; later rounds render every history entry
and ask to continue or answer. -/
def roundPrompt (userPrompt : String) (history : List String) (iteration : Nat) : String :=
  if iteration = 0 then
    "User question: " ++ userPrompt ++ "\n\nWhat should I do?"
  else
    "User question: " ++ userPrompt ++ "\n\n" ++ "Previous actions:\n" ++
      renderHistory history ++
      "\nWhat should I do next? If you have enough information, provide the final answer."

/-- The two-message list sent to the model each round (lines 163-166). -/
def roundMessages (sys userPrompt : String) (history : List String) (iteration : Nat) :
    List Message :=
  [{ role := "system", content := sys },
   { role := "user", content := roundPrompt userPrompt history iteration }]

/-- The forced-final prompt built after `max_iterations` rounds
(lines 222-226). -/
def forcedFinalPrompt (userPrompt : String) (history : List String) : String :=
  "User question: " ++ userPrompt ++ "\n\n" ++ "Here\x27s what we found:\n" ++
    renderHistory history ++
    "\nPlease provide a final answer to the user\x27s question based on this information."

/-- The message list of the forced-final call (lines 228-231). -/
def forcedFinalMessages (userPrompt : String) (history : List String) : List Message :=
  [{ role := "system",
     content := "You are a helpful AI assistant. Provide a clear, concise answer." },
   { role := "user", content := forcedFinalPrompt userPrompt history }]

/-- `True` for values a Python dict membership test accepts as a key
(dicts and lists are unhashable: `tool_name not in tool_map` raises
`TypeError` on them, which only the top-level handler catches). -/
def jsonHashable : Json → Bool
  | .obj _ => false
  | .arr _ => false
  | _ => true

/-- The history entry for an unknown tool (line 196). -/
def unknownToolEntry (toolName : Json) : String :=
  "Tried to use " ++ pyStr toolName ++ " but it doesn\x27t exist"

/-- The history entry for a successful tool call (line 204): the output is
truncated to its first 100 characters. -/
def usedToolEntry (toolName toolInput : Json) (result : String) : String :=
  "Used " ++ pyStr toolName ++ "(\x27" ++ pyStr toolInput ++ "\x27) → " ++
    result.take 100 ++ "..."

/-- The history entry for a tool that raised (lines 207-209). -/
def toolErrorEntry (toolName : Json) (err : String) : String :=
  "Tried " ++ pyStr toolName ++ " but got error: Error: " ++ err

/-- Which branch of the `if parsed["type"] == ...` chain (lines 177-215)
ran.  Instrumentation only: `run_task` does not read it. -/
inductive Branch where
  | finalB
  | toolB
  | unclearB
deriving DecidableEq

/-- The key lookup `tool_map[tool_name]` behind the membership test
`tool_name not in tool_map`: only a string can equal a string key (the
unhashable case is excluded before this runs). -/
def toolKeyLookup (toolMap : ToolMap) : Json → Option ToolFn
  | .str name => pyLookup toolMap name
  | _ => none

/-- The `try: tool_result = tool.func(tool_input) ... except` block
(lines 201-210): a returned string appends a truncated-output entry, an
exception appends an error entry. -/
def runToolFn (f : ToolFn) (toolName toolInput : Json) (history : List String) :
    Except String (Sum String (List String)) × Branch :=
  match f toolInput with
  | .ok r => (.ok (.inr (history ++ [usedToolEntry toolName toolInput r])), .toolB)
  | .error e => (.ok (.inr (history ++ [toolErrorEntry toolName e])), .toolB)

/-- The `tool_call` arm of the round body (lines 184-210): unknown names
are recorded without calling any tool; a registered tool is called via
`runToolFn`. -/
def dispatchTool (toolMap : ToolMap) (toolName toolInput : Json) (history : List String) :
    Except String (Sum String (List String)) × Branch :=
  if jsonHashable toolName = false then
    (.error "unhashable type", .toolB)
  else
    match toolKeyLookup toolMap toolName with
    | none => (.ok (.inr (history ++ [unknownToolEntry toolName])), .toolB)
    | some f => runToolFn f toolName toolInput history

/-- The body of one round after parsing (lines 177-215): return the final
answer (`Sum.inl`), continue with an extended history (`Sum.inr`), or let an
exception escape (`.error`, possible only from the unhashable-name
membership test, since tool exceptions are caught on lines 206-210). -/
def handleParsed (toolMap : ToolMap) (p : ParsedResponse) (history : List String) :
    Except String (Sum String (List String)) × Branch :=
  if p.type = "final_answer" then
    (.ok (.inl (p.content.getD "")), .finalB)
  else if p.type = "tool_call" then
    dispatchTool toolMap (p.tool.getD .null) (p.input.getD .null) history
  else
    (.ok (.inr (history ++ ["LLM response was unclear"])), .unclearB)

/-- One round (lines 144-215): invoke the model (an exception propagates
uncaught), parse its text, and handle the parsed response.  The `Branch`
component reports which branch ran (`none` when the model call failed). -/
def runRound (llm : LLM) (toolMap : ToolMap) (userPrompt sys : String)
    (iteration : Nat) (history : List String) :
    Except String (Sum String (List String)) × Option Branch :=
  match llm iteration (roundMessages sys userPrompt history iteration) with
  | .error e => (.error e, none)
  | .ok resp =>
    let hb := handleParsed toolMap (parse_llm_response resp) history
    (hb.1, some hb.2)

/-- The outcome of the `for` loop plus the forced-final epilogue:
`result` is what the `try` block returns (or the exception it lets
escape); `histAtEnd` is `conversation_history` at exit and `forced`
reports whether the forced-final call was made.  The last two components
are instrumentation: `run_task` only reads `result`. -/
structure LoopOut where
  result : Except String String
  histAtEnd : List String
  forced : Bool

/-- The agentic loop (lines 144-239), by remaining-round count: with no
rounds left, make the single forced-final call (lines 217-239); otherwise
run one round and either return, abort on a model failure, or continue. -/
def agentLoop (llm : LLM) (toolMap : ToolMap) (userPrompt sys : String) :
    Nat → Nat → List String → LoopOut
  | 0, iteration, history =>
    { result := llm iteration (forcedFinalMessages userPrompt history),
      histAtEnd := history, forced := true }
  | fuel + 1, iteration, history =>
    match runRound llm toolMap userPrompt sys iteration history with
    | (.error e, _) => { result := .error e, histAtEnd := history, forced := false }
    | (.ok (.inl answer), _) => { result := .ok answer, histAtEnd := history, forced := false }
    | (.ok (.inr newHistory), _) =>
      agentLoop llm toolMap userPrompt sys fuel (iteration + 1) newHistory

/-- `run_task` (lines 90-246): run the loop under the top-level
`try/except Exception` which converts any escaped exception into the
apologetic plain-text message of lines 241-246. -/
def run_task (llm : LLM) (toolMap : ToolMap) (userPrompt : String)
    (systemInstructions : Option String) : String :=
  let sys := systemInstructions.getD AGENTIC_SYSTEM_PROMPT
  match (agentLoop llm toolMap userPrompt sys max_iterations 0 []).result with
  | .ok answer => answer
  | .error e => "I encountered an error: " ++ e ++ "\n\nPlease try rephrasing your query."

/-! ### Tool bodies (tools_langchain.py)

Each Python `try: body except: handler` is `pyTry`; an `Except.error`
models a raised exception. -/

/-- Python `try/except`: run the body; on an exception run the handler
(an exception raised inside the handler propagates). -/
def pyTry {E A : Type} (body : Except E A) (handler : E → Except E A) : Except E A :=
  match body with
  | .ok a => .ok a
  | .error e => handler e

/-! #### `wikipedia_search_function` (lines 27-66) -/

/-- The fields of a `wikipedia.page` result that the tool reads. -/
structure WikiPage where
  title : String
  summary : String
  url : String

/-- Exceptions the `wikipedia` library can raise, as the tool
distinguishes them: `DisambiguationError` (with its options),
`PageError`, and anything else. -/
inductive WikiExc where
  | disambiguation (options : List String)
  | pageError
  | other (msg : String)

/-- Python `l[i]`: `IndexError` when out of range. -/
def listIndex {α : Type} (l : List α) (i : Nat) : Except WikiExc α :=
  match l.get? i with
  | some a => .ok a
  | none => .error (.other "list index out of range")

/-- `clean_query = query.strip().rstrip('?!.,;:').strip()` (line 34). -/
def cleanWikiQuery (query : String) : String :=
  String.mk (pyStrip (pyRStripSet (pyStrip query.data) ['?', '!', '.', ',', ';', ':']))

/-- The result string built from a page (lines 42, 50, 59). -/
def formatWikiPage (p : WikiPage) : String :=
  "**" ++ p.title ++ "**\n\n" ++ p.summary ++ "\n\nSource: " ++ p.url

/-- `wikipedia_search_function` (lines 27-66).  `pageO q suggest` models
`wikipedia.page(q, auto_suggest=suggest)` (the library default is
`auto_suggest=True`); `searchO q n` models `wikipedia.search(q, results=n)`.
An `.error` result of the whole function would model an uncaught
exception. -/
def wikipedia_search_function (pageO : String → Bool → Except WikiExc WikiPage)
    (searchO : String → Nat → Except WikiExc (List String)) (query : String) :
    Except WikiExc String :=
  let clean_query := cleanWikiQuery query
  pyTry
    ((pyTry (pageO clean_query false) (fun _ => pageO clean_query true)).map
      formatWikiPage)
    (fun e =>
      match e with
      | .disambiguation options =>
        pyTry ((listIndex options 0).bind (fun o => (pageO o true).map formatWikiPage))
          (fun _ => .ok ("Found multiple results. Please be more specific. Options: " ++
            joinComma (options.take 5)))
      | .pageError =>
        pyTry ((searchO clean_query 3).bind (fun results =>
            match results with
            | [] => .ok ("No Wikipedia page found for \x27" ++ clean_query ++
                "\x27. Try different keywords.")
            | r0 :: _ => (pageO r0 true).map formatWikiPage))
          (fun _ => .ok ("Could not find information about \x27" ++ clean_query ++
            "\x27 on Wikipedia."))
      | .other m => .ok ("Error searching Wikipedia: " ++ m))

/-! #### `calculator_function` (lines 72-133)

`ast.parse(clean, mode='eval').body` is an oracle producing the expression
tree; the numeric type and the arithmetic of the `operator` module are
abstract (`V`, `applyBin`, `applyUSub`, `intO`, `eqO`, `strO`), since the
claims concern exception behavior, not float arithmetic. -/

/-- The binary operator node kinds `_eval` distinguishes; `otherB` stands
for every `ast` operator class outside `SAFE_OPERATORS`. -/
inductive PyBinOp where
  | addB
  | subB
  | multB
  | divB
  | powB
  | modB
  | otherB (name : String)

/-- `type(node.op).__name__` for binary operators. -/
def binOpName : PyBinOp → String
  | .addB => "Add"
  | .subB => "Sub"
  | .multB => "Mult"
  | .divB => "Div"
  | .powB => "Pow"
  | .modB => "Mod"
  | .otherB n => n

/-- Membership of the operator class in `SAFE_OPERATORS` (lines 72-80). -/
def binOpSupported : PyBinOp → Bool
  | .otherB _ => false
  | _ => true

/-- Unary operator node kinds: `USub` is in `SAFE_OPERATORS`, nothing else
(`UAdd`, `Not`, `Invert` are not). -/
inductive PyUnaryOp where
  | usubU
  | otherU (name : String)

/-- `type(node.op).__name__` for unary operators. -/
def unaryOpName : PyUnaryOp → String
  | .usubU => "USub"
  | .otherU n => n

/-- Membership of the unary operator class in `SAFE_OPERATORS`. -/
def unaryOpSupported : PyUnaryOp → Bool
  | .usubU => true
  | .otherU _ => false

/-- The expression tree `ast.parse(e, mode='eval').body` as `_eval` walks
it: numeric constants, binary and unary operations, and any other node
kind with its class name. -/
inductive ArithAst (V : Type) where
  | num (v : V)
  | binOp (op : PyBinOp) (left right : ArithAst V)
  | unaryOp (op : PyUnaryOp) (operand : ArithAst V)
  | otherNode (typeName : String)

/-- `_eval` (lines 84-98): numeric leaves return their value; operator
nodes check `SAFE_OPERATORS` first (raising `ValueError` on a miss) and
then apply the operator to the recursively evaluated children; any other
node raises `ValueError`.  `applyBin`/`applyUSub` may raise
(`ZeroDivisionError`, `OverflowError`, ...). -/
def evalAst {V : Type} (applyBin : PyBinOp → V → V → Except String V)
    (applyUSub : V → Except String V) : ArithAst V → Except String V
  | .num v => .ok v
  | .binOp op l r =>
    if binOpSupported op then do
      let a ← evalAst applyBin applyUSub l
      let b ← evalAst applyBin applyUSub r
      applyBin op a b
    else .error ("Unsupported operation: " ++ binOpName op)
  | .unaryOp op e =>
    if unaryOpSupported op then do
      let a ← evalAst applyBin applyUSub e
      applyUSub a
    else .error ("Unsupported operation: " ++ unaryOpName op)
  | .otherNode typeName => .error ("Unsupported expression: " ++ typeName)

/-- `safe_eval_expression` (lines 82-101): parse (the oracle's `.error`
models a `SyntaxError` from `ast.parse`) then `_eval`. -/
def safe_eval_expression {V : Type} (parseO : String → Except String (ArithAst V))
    (applyBin : PyBinOp → V → V → Except String V) (applyUSub : V → Except String V)
    (expression : String) : Except String V :=
  (parseO expression).bind (evalAst applyBin applyUSub)

/-- The cleaning chain of `calculator_function` (lines 109-117), in source
order. -/
def cleanExpr (expression : String) : String :=
  let c := pyStrip expression.data
  let c := replaceAll " plus ".data "+".data c
  let c := replaceAll " minus ".data "-".data c
  let c := replaceAll " times ".data "*".data c
  let c := replaceAll " divided by ".data "/".data c
  let c := replaceAll " to the power of ".data "**".data c
  let c := replaceAll "x".data "*".data c
  let c := replaceAll "×".data "*".data c
  let c := replaceAll "÷".data "/".data c
  let c := replaceAll " ".data "".data c
  String.mk c

/-- `calculator_function` (lines 103-133): clean, evaluate, normalize via
`int(result)` when `result == int(result)` (`intO` may raise, e.g. on
`nan`/`inf`), format; every exception is caught and turned into the
`Cannot calculate` message built from the original expression. -/
def calculator_function {V : Type} (parseO : String → Except String (ArithAst V))
    (applyBin : PyBinOp → V → V → Except String V) (applyUSub : V → Except String V)
    (intO : V → Except String V) (eqO : V → V → Bool) (strO : V → String)
    (expression : String) : Except String String :=
  pyTry
    (do
      let clean := cleanExpr expression
      let result ← safe_eval_expression parseO applyBin applyUSub clean
      let i ← intO result
      let result := if eqO result i then i else result
      Except.ok ("The result is: **" ++ strO result ++ "**"))
    (fun e => .ok ("Cannot calculate \x27" ++ expression ++ "\x27. Error: " ++ e))

/-! #### `unit_converter_function` (lines 139-258)

The regular-expression search of line 214-215 is an oracle returning the
three captured groups; numbers are exact rationals standing in for Python
floats (every conversion factor is a decimal literal). -/

/-- `UNIT_CONVERSIONS["length"]` (lines 140-149). -/
def lengthUnits : List (String × Rat) :=
  [("meters", 1), ("m", 1), ("meter", 1),
   ("kilometers", 1000), ("km", 1000), ("kilometer", 1000),
   ("centimeters", 0.01), ("cm", 0.01), ("centimeter", 0.01),
   ("millimeters", 0.001), ("mm", 0.001), ("millimeter", 0.001),
   ("miles", 1609.34), ("mile", 1609.34), ("mi", 1609.34),
   ("yards", 0.9144), ("yard", 0.9144), ("yd", 0.9144),
   ("feet", 0.3048), ("foot", 0.3048), ("ft", 0.3048),
   ("inches", 0.0254), ("inch", 0.0254), ("in", 0.0254)]

/-- `UNIT_CONVERSIONS["weight"]` (lines 150-157). -/
def weightUnits : List (String × Rat) :=
  [("kilograms", 1), ("kg", 1), ("kilogram", 1),
   ("grams", 0.001), ("g", 0.001), ("gram", 0.001),
   ("milligrams", 0.000001), ("mg", 0.000001), ("milligram", 0.000001),
   ("pounds", 0.453592), ("pound", 0.453592), ("lb", 0.453592), ("lbs", 0.453592),
   ("ounces", 0.0283495), ("ounce", 0.0283495), ("oz", 0.0283495),
   ("tons", 1000), ("ton", 1000)]

/-- `UNIT_CONVERSIONS["temperature"]` (lines 158-162). -/
def temperatureUnits : List (String × String) :=
  [("celsius", "C"), ("c", "C"),
   ("fahrenheit", "F"), ("f", "F"),
   ("kelvin", "K"), ("k", "K")]

/-- `UNIT_CONVERSIONS["volume"]` (lines 163-170). -/
def volumeUnits : List (String × Rat) :=
  [("liters", 1), ("l", 1), ("liter", 1),
   ("milliliters", 0.001), ("ml", 0.001), ("milliliter", 0.001),
   ("gallons", 3.78541), ("gallon", 3.78541), ("gal", 3.78541),
   ("quarts", 0.946353), ("quart", 0.946353), ("qt", 0.946353),
   ("pints", 0.473176), ("pint", 0.473176), ("pt", 0.473176),
   ("cups", 0.236588), ("cup", 0.236588)]

/-- `find_unit_category` (lines 173-179), iterating the categories in the
dict insertion order length, weight, temperature, volume. -/
def find_unit_category (unit : String) : Option String :=
  let u := pyLower unit
  if (pyLookup lengthUnits u).isSome then some "length"
  else if (pyLookup weightUnits u).isSome then some "weight"
  else if (pyLookup temperatureUnits u).isSome then some "temperature"
  else if (pyLookup volumeUnits u).isSome then some "volume"
  else none

/-- The factor table of a non-temperature category. -/
def categoryTable : String → List (String × Rat)
  | "length" => lengthUnits
  | "weight" => weightUnits
  | "volume" => volumeUnits
  | _ => []

/-- Python dict indexing `d[k]`: `KeyError` when absent. -/
def dictIndexRat (d : List (String × Rat)) (k : String) : Except String Rat :=
  match pyLookup d k with
  | some v => .ok v
  | none => .error ("KeyError: \x27" ++ k ++ "\x27")

/-- `convert_temperature` (lines 181-204): to Celsius, then to the target;
unknown units raise `ValueError`. -/
def convert_temperature (value : Rat) (from_unit to_unit : String) : Except String Rat :=
  let from_u := pyLookup temperatureUnits (pyLower from_unit)
  let to_u := pyLookup temperatureUnits (pyLower to_unit)
  (show Except String Rat from
    match from_u with
    | some "C" => .ok value
    | some "F" => .ok ((value - 32) * 5 / 9)
    | some "K" => .ok (value - 273.15)
    | _ => Except.error ("Unknown temperature unit: " ++ from_unit)).bind
    (fun celsius =>
      match to_u with
      | some "C" => .ok celsius
      | some "F" => .ok (celsius * 9 / 5 + 32)
      | some "K" => .ok (celsius + 273.15)
      | _ => Except.error ("Unknown temperature unit: " ++ to_unit))

/-- Round half to even at integer precision (Python `round` on a value
with an exact representation). -/
def roundHalfEven (q : Rat) : Int :=
  let f := q.floor
  let frac := q - f
  if frac < 1 / 2 then f
  else if frac > 1 / 2 then f + 1
  else if f % 2 = 0 then f else f + 1

/-- Python `round(x, n)` on exact values. -/
def pyRoundTo (x : Rat) (n : Nat) : Rat :=
  let m : Rat := (10 : Rat) ^ n
  (roundHalfEven (x * m) : Rat) / m

/-- Digits of the fractional part, most significant first, up to `n`
places (all rendered values terminate well before that). -/
def fracDigits : Rat → Nat → String
  | _, 0 => ""
  | f, n + 1 =>
    if f = 0 then ""
    else
      let f10 := f * 10
      let d := f10.floor
      toString d ++ fracDigits (f10 - (d : Rat)) n

/-- Python `str()` of a float with an exact decimal value (always rendered
with at least one fractional digit, e.g. `100.0`). -/
def ratPyStr (x : Rat) : String :=
  let neg := x < 0
  let a := if neg then -x else x
  let ip := a.floor
  let frac := a - (ip : Rat)
  let ds := fracDigits frac 20
  (if neg then "-" else "") ++ toString ip ++ "." ++ (if ds = "" then "0" else ds)

/-- Python `float(s)` restricted to the shapes the regex group
`\d+\.?\d*` can produce; a malformed string raises `ValueError`. -/
def pyFloat (s : String) : Except String Rat :=
  match digitSpan (pyStrip s.data) with
  | ([], _) => .error ("could not convert string to float: \x27" ++ s ++ "\x27")
  | (ints, rest) =>
    let intVal : Nat := ints.foldl (fun acc c => acc * 10 + (c.toNat - '0'.toNat)) 0
    match rest with
    | [] => .ok (intVal : Rat)
    | '.' :: rest2 =>
      match digitSpan rest2 with
      | (fds, []) =>
        let fracVal : Nat := fds.foldl (fun acc c => acc * 10 + (c.toNat - '0'.toNat)) 0
        .ok ((intVal : Rat) + (fracVal : Rat) / ((10 : Rat) ^ fds.length))
      | _ => .error ("could not convert string to float: \x27" ++ s ++ "\x27")
    | _ => .error ("could not convert string to float: \x27" ++ s ++ "\x27")

/-- `unit_converter_function` (lines 206-258).  `matchO q` models
`re.search(pattern, q)` on the lowered query, returning the three captured
groups; every exception inside the body is caught and becomes the
`Cannot convert` message. -/
def unit_converter_function (matchO : String → Option (String × String × String))
    (conversion_query : String) : Except String String :=
  pyTry
    (match matchO (pyLower conversion_query) with
     | none => Except.ok
         "Please use format: \x27X unit to unit\x27 (e.g., \x27100 kilometers to miles\x27)"
     | some (g1, g2, g3) => do
       let value ← pyFloat g1
       let from_unit := g2
       let to_unit := g3
       match find_unit_category from_unit, find_unit_category to_unit with
       | none, _ => Except.ok ("Unknown unit: " ++ from_unit)
       | some _, none => Except.ok ("Unknown unit: " ++ to_unit)
       | some from_cat, some to_cat =>
         if from_cat ≠ to_cat then
           Except.ok ("Cannot convert between " ++ from_cat ++ " and " ++ to_cat)
         else do
           let result ←
             if from_cat = "temperature" then
               convert_temperature value from_unit to_unit
             else do
               let from_factor ← dictIndexRat (categoryTable from_cat) (pyLower from_unit)
               let to_factor ← dictIndexRat (categoryTable to_cat) (pyLower to_unit)
               Except.ok (value * from_factor / to_factor)
           let result :=
             if result > 100 then pyRoundTo result 2
             else if result > 10 then pyRoundTo result 3
             else pyRoundTo result 4
           Except.ok (ratPyStr value ++ " " ++ from_unit ++ " = **" ++ ratPyStr result ++
             " " ++ to_unit ++ "**"))
    (fun e => .ok ("Cannot convert \x27" ++ conversion_query ++ "\x27. Error: " ++ e))

/-! ### Helper lemmas -/

/-- `String.append` concatenates the underlying character lists. -/
lemma strDataAppend (a b : String) : (a ++ b).data = a.data ++ b.data := by
  cases a
  cases b
  rfl

/-- Finding a character that is absent from the left part of a
concatenation. -/
lemma pyFindIdx_append (l r : List Char) (c : Char) (h : c ∉ l) :
    pyFindIdx (l ++ r) c = l.length + pyFindIdx r c := by
  induction l with
  | nil => simp [pyFindIdx]
  | cons a rest ih =>
    have ha : a ≠ c := fun hc => h (hc ▸ List.mem_cons_self a rest)
    have hr : c ∉ rest := fun hc => h (List.mem_cons_of_mem a hc)
    simp [pyFindIdx, ha, ih hr]
    omega

/-- A character heads the list it is searched in. -/
lemma pyFindIdx_cons_self (r : List Char) (c : Char) : pyFindIdx (c :: r) c = 0 := by
  simp [pyFindIdx]

/-- The last occurrence of `c` in `l ++ c :: r` with `c` absent from `r`
is at position `l.length`. -/
lemma pyRFindIdx_sandwich (l r : List Char) (c : Char) (h : c ∉ r) :
    pyRFindIdx (l ++ c :: r) c = l.length := by
  induction l with
  | nil => simp [pyRFindIdx, h]
  | cons a rest ih =>
    have hmem : c ∈ rest ++ c :: r := List.mem_append_right rest (List.mem_cons_self c r)
    simp [pyRFindIdx, hmem, ih]

/-- Taking the length of the left part of a concatenation. -/
lemma takeLenAppend {α : Type} (l r : List α) : (l ++ r).take l.length = l := by
  simp

/-- Dropping the length of the left part of a concatenation. -/
lemma dropLenAppend {α : Type} (l r : List α) : (l ++ r).drop l.length = r := by
  simp

/-- A Python slice cuts the middle part out of a three-way concatenation. -/
lemma pySlice_extract (pre mid post : List Char) :
    pySlice (pre ++ mid ++ post) pre.length (pre.length + mid.length) = mid := by
  unfold pySlice
  have h1 : pre ++ mid ++ post = (pre ++ mid) ++ post := by simp
  have h2 : pre.length + mid.length = (pre ++ mid).length := by simp
  rw [h1, h2, takeLenAppend, dropLenAppend]

/-! ### Claim C1 -/

/-- Claim C1: for every raw model-output string in which no brace-enclosed
span parses as an object containing both a `tool` and an `input` field (no
braces at all, malformed content between the first `\x7b` and the last
`\x7d`, a non-object value, or missing required fields),
`parse_llm_response` returns the final-answer dictionary carrying the
entire original string unaltered.  `parse_llm_response` is a total
function, which models that the original never lets an exception
escape. -/
theorem C1_parse_fallback_final (s : String)
    (h : '{' ∉ s.data ∨ '}' ∉ s.data
      ∨ jsonLoads (jsonCandidate s) = none
      ∨ (∃ fields, jsonLoads (jsonCandidate s) = some (Json.obj fields)
          ∧ (pyLookup fields "tool" = none ∨ pyLookup fields "input" = none))
      ∨ (∃ j, jsonLoads (jsonCandidate s) = some j ∧ ∀ fields, j ≠ Json.obj fields)) :
    parse_llm_response s = { type := "final_answer", content := some s } := by
  have hx : extractToolCall s = none := by
    unfold extractToolCall
    rcases h with h | h | h | ⟨fields, hf, hl⟩ | ⟨j, hj, hne⟩
    · simp [h]
    · simp [h]
    · by_cases hb : '{' ∈ s.data ∧ '}' ∈ s.data
      · rw [if_pos hb, h]
      · rw [if_neg hb]
    · by_cases hb : '{' ∈ s.data ∧ '}' ∈ s.data
      · rw [if_pos hb, hf]
        show pairFields (pyLookup fields "tool") (pyLookup fields "input") = none
        rcases hl with hl | hl
        · rw [hl]
          rfl
        · rw [hl]
          cases pyLookup fields "tool" <;> rfl
      · rw [if_neg hb]
    · by_cases hb : '{' ∈ s.data ∧ '}' ∈ s.data
      · rw [if_pos hb, hj]
        show objToolFields j = none
        cases j with
        | obj fs => exact absurd rfl (hne fs)
        | null => rfl
        | bool b => rfl
        | num lex => rfl
        | str t => rfl
        | arr xs => rfl
      · rw [if_neg hb]
  unfold parse_llm_response
  rw [hx]

/-- Witness for C1 at a concrete brace-free input. -/
theorem C1_parse_fallback_final_witness :
    '{' ∉ ("I do not need a tool" : String).data
    ∧ parse_llm_response "I do not need a tool"
        = { type := "final_answer", content := some "I do not need a tool" } :=
  ⟨by decide, C1_parse_fallback_final "I do not need a tool" (Or.inl (by decide))⟩

/-! ### Claim C2 -/

/-- A model text containing a well-formed tool-call object preceded by a
stray opening brace: the first-`\x7b`-to-last-`\x7d` span is then malformed
and the parser falls back to a final answer. -/
def c2BadResponse : String := "\x7b \x7b\"tool\": \"calculator\", \"input\": \"1+1\"\x7d"

/-- The well-formed object embedded in `c2BadResponse`. -/
def c2GoodJson : String := "\x7b\"tool\": \"calculator\", \"input\": \"1+1\"\x7d"

/-- Counterexample to claim C2 as stated: `c2BadResponse` contains (as a
contiguous substring) a well-formed JSON object with `tool` and `input`
fields, yet `parse_llm_response` returns a final answer, not a tool
call. -/
theorem C2_counterexample :
    (∃ pre post : List Char, c2BadResponse.data = pre ++ c2GoodJson.data ++ post)
    ∧ jsonLoads c2GoodJson.data
        = some (Json.obj [("tool", Json.str "calculator"), ("input", Json.str "1+1")])
    ∧ parse_llm_response c2BadResponse
        = { type := "final_answer", content := some c2BadResponse } :=
  ⟨⟨['\x7b', ' '], [], by decide⟩, rfl, rfl⟩

/-- Claim C2 (amended): for every raw string of the form
`pre ++ J ++ post` where `J` is a brace-delimited span that parses as a
JSON object with both a `tool` field (value `T`) and an `input` field
(value `I`), the text before `J` contains no `\x7b` and the text after `J`
contains no `\x7d`, `parse_llm_response` returns the tool-call dictionary
with tool `T` and input `I`.  (The unrestricted original fails: see
`C2_counterexample`.) -/
theorem C2_amended_toolcall (pre mid post : List Char) (fields : List (String × Json))
    (T I : Json)
    (hpre : '{' ∉ pre) (hpost : '}' ∉ post)
    (hparse : jsonLoads ('{' :: mid ++ ['}']) = some (Json.obj fields))
    (htool : pyLookup fields "tool" = some T)
    (hinput : pyLookup fields "input" = some I) :
    parse_llm_response (String.mk (pre ++ ('{' :: mid ++ ['}']) ++ post))
      = { type := "tool_call", tool := some T, input := some I } := by
  set J : List Char := '{' :: mid ++ ['}'] with hJ
  set s : String := String.mk (pre ++ J ++ post) with hs
  have hdata : s.data = pre ++ J ++ post := rfl
  have hmem1 : '{' ∈ s.data := by
    rw [hdata, hJ]
    exact List.mem_append_left post (List.mem_append_right pre (List.mem_cons_self _ _))
  have hmem2 : '}' ∈ s.data := by
    rw [hdata, hJ]
    refine List.mem_append_left post (List.mem_append_right pre ?_)
    exact List.mem_cons_of_mem _ (List.mem_append_right mid (List.mem_cons_self _ _))
  have hfind : pyFindIdx s.data '{' = pre.length := by
    rw [hdata, hJ]
    rw [show pre ++ ('{' :: mid ++ ['}']) ++ post = pre ++ ('{' :: (mid ++ ['}'] ++ post))
      from by simp]
    rw [pyFindIdx_append pre _ '{' hpre, pyFindIdx_cons_self]
    omega
  have hrfind : pyRFindIdx s.data '}' = pre.length + mid.length + 1 := by
    rw [hdata, hJ]
    rw [show pre ++ ('{' :: mid ++ ['}']) ++ post = (pre ++ '{' :: mid) ++ '}' :: post
      from by simp]
    rw [pyRFindIdx_sandwich (pre ++ '{' :: mid) post '}' hpost]
    simp
    omega
  have hcand : jsonCandidate s = J := by
    unfold jsonCandidate
    rw [hfind, hrfind]
    have hlen : pre.length + mid.length + 1 + 1 = pre.length + J.length := by
      rw [hJ]
      simp
      omega
    rw [hlen, hdata]
    exact pySlice_extract pre J post
  have hx : extractToolCall s = some (T, I) := by
    unfold extractToolCall
    rw [if_pos ⟨hmem1, hmem2⟩, hcand, hparse]
    show pairFields (pyLookup fields "tool") (pyLookup fields "input") = some (T, I)
    rw [htool, hinput]
    rfl
  show parse_llm_response s = _
  unfold parse_llm_response
  rw [hx]

/-- Witness for the amended C2 on a concrete input with surrounding
text. -/
theorem C2_amended_toolcall_witness :
    '{' ∉ "Sure: ".data
    ∧ '}' ∉ " running it now.".data
    ∧ jsonLoads ('{' :: "\"tool\": \"calculator\", \"input\": \"2+2\"".data ++ ['}'])
        = some (Json.obj [("tool", Json.str "calculator"), ("input", Json.str "2+2")])
    ∧ parse_llm_response (String.mk ("Sure: ".data
          ++ ('{' :: "\"tool\": \"calculator\", \"input\": \"2+2\"".data ++ ['}'])
          ++ " running it now.".data))
        = { type := "tool_call", tool := some (Json.str "calculator"),
            input := some (Json.str "2+2") } :=
  ⟨by decide, by decide, rfl,
    C2_amended_toolcall "Sure: ".data "\"tool\": \"calculator\", \"input\": \"2+2\"".data
      " running it now.".data
      [("tool", Json.str "calculator"), ("input", Json.str "2+2")]
      (Json.str "calculator") (Json.str "2+2")
      (by decide) (by decide) rfl rfl rfl⟩

/-! ### Claim C9 -/

/-- Claim C9: `parse_llm_response` always returns a dictionary whose
`type` is `"tool_call"` or `"final_answer"`; consequently the `else`
branch of `run_task` that would record `"LLM response was unclear"` is
never taken for any model response (the branch instrumentation never
reports `unclearB` on an output of `parse_llm_response`). -/
theorem C9_parse_type_total :
    (∀ s : String, (parse_llm_response s).type = "tool_call"
        ∨ (parse_llm_response s).type = "final_answer")
    ∧ (∀ (tm : ToolMap) (s : String) (h : List String),
        (handleParsed tm (parse_llm_response s) h).2 = Branch.finalB
        ∨ (handleParsed tm (parse_llm_response s) h).2 = Branch.toolB) := by
  constructor
  · intro s
    unfold parse_llm_response
    cases extractToolCall s with
    | some ti => obtain ⟨t, i⟩ := ti; left; rfl
    | none => right; rfl
  · intro tm s h
    unfold parse_llm_response
    cases extractToolCall s with
    | some ti =>
      obtain ⟨t, i⟩ := ti
      right
      show (dispatchTool tm t i h).2 = Branch.toolB
      unfold dispatchTool
      split
      · rfl
      · cases hk : toolKeyLookup tm t with
        | none => rfl
        | some f =>
          show (runToolFn f t i h).2 = Branch.toolB
          unfold runToolFn
          cases f i <;> rfl
    | none =>
      left
      rfl

/-! ### Loop-step helper lemmas -/

/-- A round whose model call returns text runs the parsed-response
handler. -/
lemma runRound_ok (llm : LLM) (tm : ToolMap) (up sys : String) (iter : Nat)
    (h : List String) (resp : String)
    (hllm : llm iter (roundMessages sys up h iter) = .ok resp) :
    runRound llm tm up sys iter h
      = ((handleParsed tm (parse_llm_response resp) h).1,
         some (handleParsed tm (parse_llm_response resp) h).2) := by
  unfold runRound
  rw [hllm]

/-- A round whose model call raises produces that error, with no branch
of the handler taken. -/
lemma runRound_err (llm : LLM) (tm : ToolMap) (up sys : String) (iter : Nat)
    (h : List String) (e : String)
    (hllm : llm iter (roundMessages sys up h iter) = .error e) :
    runRound llm tm up sys iter h = (.error e, none) := by
  unfold runRound
  rw [hllm]

/-- A continuing round consumes one unit of the iteration budget. -/
lemma agentLoop_continue (llm : LLM) (tm : ToolMap) (up sys : String)
    (fuel iter : Nat) (h h2 : List String)
    (hrr : (runRound llm tm up sys iter h).1 = .ok (.inr h2)) :
    agentLoop llm tm up sys (fuel + 1) iter h
      = agentLoop llm tm up sys fuel (iter + 1) h2 := by
  rcases hq : runRound llm tm up sys iter h with ⟨r, b⟩
  rw [hq] at hrr
  simp only at hrr
  subst hrr
  simp [agentLoop, hq]

/-- A final-answer round returns at once, without the forced-final call. -/
lemma agentLoop_final (llm : LLM) (tm : ToolMap) (up sys : String)
    (fuel iter : Nat) (h : List String) (a : String)
    (hrr : (runRound llm tm up sys iter h).1 = .ok (.inl a)) :
    agentLoop llm tm up sys (fuel + 1) iter h
      = { result := .ok a, histAtEnd := h, forced := false } := by
  rcases hq : runRound llm tm up sys iter h with ⟨r, b⟩
  rw [hq] at hrr
  simp only at hrr
  subst hrr
  simp [agentLoop, hq]

/-- A round in which the model call raises aborts the loop with that
error. -/
lemma agentLoop_abort (llm : LLM) (tm : ToolMap) (up sys : String)
    (fuel iter : Nat) (h : List String) (e : String)
    (hrr : (runRound llm tm up sys iter h).1 = .error e) :
    agentLoop llm tm up sys (fuel + 1) iter h
      = { result := .error e, histAtEnd := h, forced := false } := by
  rcases hq : runRound llm tm up sys iter h with ⟨r, b⟩
  rw [hq] at hrr
  simp only at hrr
  subst hrr
  simp [agentLoop, hq]

/-! ### Claim C3 -/

/-- Claim C3: when a round's parsed response names a tool (a string
`name`) absent from the registry (exact, case-sensitive lookup), no tool
callable is invoked (the round's outcome is the fixed unknown-tool record,
independent of every tool function), the record is appended to the round
log, and the loop continues into the next round, consuming one unit of
the `max_iterations` budget rather than a separate error counter. -/
theorem C3_unknown_tool_round (llm : LLM) (tm : ToolMap) (up sys resp : String)
    (name : String) (input : Json) (h : List String) (fuel iter : Nat)
    (hlk : pyLookup tm name = none)
    (hllm : llm iter (roundMessages sys up h iter) = .ok resp)
    (hp : parse_llm_response resp
        = { type := "tool_call", tool := some (Json.str name), input := some input }) :
    handleParsed tm (parse_llm_response resp) h
      = (.ok (.inr (h ++ [unknownToolEntry (Json.str name)])), Branch.toolB)
    ∧ agentLoop llm tm up sys (fuel + 1) iter h
      = agentLoop llm tm up sys fuel (iter + 1)
          (h ++ [unknownToolEntry (Json.str name)]) := by
  have hhp : handleParsed tm (parse_llm_response resp) h
      = (.ok (.inr (h ++ [unknownToolEntry (Json.str name)])), Branch.toolB) := by
    rw [hp]
    show dispatchTool tm (Json.str name) input h = _
    unfold dispatchTool
    rw [if_neg (by simp [jsonHashable])]
    have hk : toolKeyLookup tm (Json.str name) = none := by
      show pyLookup tm name = none
      exact hlk
    rw [hk]
  have h1 : (runRound llm tm up sys iter h).1
      = .ok (.inr (h ++ [unknownToolEntry (Json.str name)])) := by
    rw [runRound_ok llm tm up sys iter h resp hllm, hhp]
  exact ⟨hhp, agentLoop_continue llm tm up sys fuel iter h _ h1⟩

/-- Fixture: a model response requesting a tool that is not registered. -/
def respUnknownW : String := "\x7b\"tool\": \"teleporter\", \"input\": \"x\"\x7d"

/-- Fixture: a model client that always answers `respUnknownW`. -/
def llmUnknownW : LLM := fun _ _ => .ok respUnknownW

/-- Fixture: a registered tool whose callable always raises. -/
def failToolW : ToolFn := fun _ => .error "division by zero"

/-- Fixture registry with the single tool `calculator`. -/
def tmFailW : ToolMap := [("calculator", failToolW)]

/-- Witness for C3 on concrete fixtures. -/
theorem C3_unknown_tool_round_witness :
    pyLookup tmFailW "teleporter" = none
    ∧ handleParsed tmFailW (parse_llm_response respUnknownW) []
        = (.ok (.inr ([] ++ [unknownToolEntry (Json.str "teleporter")])), Branch.toolB)
    ∧ agentLoop llmUnknownW tmFailW "q" "s" (2 + 1) 0 []
        = agentLoop llmUnknownW tmFailW "q" "s" 2 (0 + 1)
            ([] ++ [unknownToolEntry (Json.str "teleporter")]) := by
  have hmain := C3_unknown_tool_round llmUnknownW tmFailW "q" "s" respUnknownW
    "teleporter" (Json.str "x") [] 2 0 rfl rfl rfl
  exact ⟨rfl, hmain.1, hmain.2⟩

/-! ### Claim C4 -/

/-- Claim C4: when a registered tool's callable raises, the invocation is
not terminated: the round's outcome is a continuing step that appends the
tool-failure record containing the stringified exception message, and the
loop proceeds into the next round. -/
theorem C4_tool_failure_round (llm : LLM) (tm : ToolMap) (up sys resp : String)
    (name : String) (input : Json) (h : List String) (fuel iter : Nat)
    (f : ToolFn) (e : String)
    (hlk : pyLookup tm name = some f)
    (hfail : f input = .error e)
    (hllm : llm iter (roundMessages sys up h iter) = .ok resp)
    (hp : parse_llm_response resp
        = { type := "tool_call", tool := some (Json.str name), input := some input }) :
    handleParsed tm (parse_llm_response resp) h
      = (.ok (.inr (h ++ [toolErrorEntry (Json.str name) e])), Branch.toolB)
    ∧ agentLoop llm tm up sys (fuel + 1) iter h
      = agentLoop llm tm up sys fuel (iter + 1)
          (h ++ [toolErrorEntry (Json.str name) e]) := by
  have hhp : handleParsed tm (parse_llm_response resp) h
      = (.ok (.inr (h ++ [toolErrorEntry (Json.str name) e])), Branch.toolB) := by
    rw [hp]
    show dispatchTool tm (Json.str name) input h = _
    unfold dispatchTool
    rw [if_neg (by simp [jsonHashable])]
    have hk : toolKeyLookup tm (Json.str name) = some f := by
      show pyLookup tm name = some f
      exact hlk
    rw [hk]
    show runToolFn f (Json.str name) input h = _
    unfold runToolFn
    rw [hfail]
  have h1 : (runRound llm tm up sys iter h).1
      = .ok (.inr (h ++ [toolErrorEntry (Json.str name) e])) := by
    rw [runRound_ok llm tm up sys iter h resp hllm, hhp]
  exact ⟨hhp, agentLoop_continue llm tm up sys fuel iter h _ h1⟩

/-- Fixture: a model response calling the registered failing tool. -/
def respCalcW : String := "\x7b\"tool\": \"calculator\", \"input\": \"1/0\"\x7d"

/-- Fixture: a model client that always answers `respCalcW`. -/
def llmCalcW : LLM := fun _ _ => .ok respCalcW

/-- Witness for C4 on concrete fixtures. -/
theorem C4_tool_failure_round_witness :
    pyLookup tmFailW "calculator" = some failToolW
    ∧ failToolW (Json.str "1/0") = .error "division by zero"
    ∧ handleParsed tmFailW (parse_llm_response respCalcW) []
        = (.ok (.inr ([] ++ [toolErrorEntry (Json.str "calculator") "division by zero"])),
           Branch.toolB)
    ∧ agentLoop llmCalcW tmFailW "q" "s" (2 + 1) 0 []
        = agentLoop llmCalcW tmFailW "q" "s" 2 (0 + 1)
            ([] ++ [toolErrorEntry (Json.str "calculator") "division by zero"]) := by
  have hmain := C4_tool_failure_round llmCalcW tmFailW "q" "s" respCalcW
    "calculator" (Json.str "1/0") [] 2 0 failToolW "division by zero" rfl rfl rfl rfl
  exact ⟨rfl, rfl, hmain.1, hmain.2⟩

/-! ### Claim C7 -/

/-- Claim C7: `run_task` is a total function (the Python original never
lets an exception reach its caller): whatever error escapes the loop — in
particular a model-invocation failure in any round, which no per-round
handler catches, and a failure of the forced-final call — is converted
once, at the top level, into the plain-text message that reports the
exception text and suggests rephrasing the query. -/
theorem C7_top_level_error_message :
    (∀ (llm : LLM) (tm : ToolMap) (up : String) (si : Option String) (e : String),
        (agentLoop llm tm up (si.getD AGENTIC_SYSTEM_PROMPT) max_iterations 0 []).result
          = .error e →
        run_task llm tm up si
          = "I encountered an error: " ++ e ++ "\n\nPlease try rephrasing your query.")
    ∧ (∀ (llm : LLM) (tm : ToolMap) (up sys : String) (fuel iter : Nat)
        (h : List String) (e : String),
        llm iter (roundMessages sys up h iter) = .error e →
        agentLoop llm tm up sys (fuel + 1) iter h
          = { result := .error e, histAtEnd := h, forced := false })
    ∧ (∀ (llm : LLM) (tm : ToolMap) (up sys : String) (iter : Nat)
        (h : List String) (e : String),
        llm iter (forcedFinalMessages up h) = .error e →
        (agentLoop llm tm up sys 0 iter h).result = .error e) := by
  refine ⟨?_, ?_, ?_⟩
  · intro llm tm up si e herr
    simp only [run_task]
    rw [herr]
  · intro llm tm up sys fuel iter h e hllm
    exact agentLoop_abort llm tm up sys fuel iter h e
      (by rw [runRound_err llm tm up sys iter h e hllm])
  · intro llm tm up sys iter h e hllm
    show (llm iter (forcedFinalMessages up h) : Except String String) = .error e
    exact hllm

/-- Fixture: a model client whose every call raises. -/
def llmBoomW : LLM := fun _ _ => .error "Connection refused"

/-- Witness for C7: the fixture client fails in round 0 and `run_task`
returns the apologetic message mentioning the exception. -/
theorem C7_top_level_error_message_witness :
    run_task llmBoomW tmFailW "q" (some "s")
      = "I encountered an error: Connection refused\n\nPlease try rephrasing your query." :=
  C7_top_level_error_message.1 llmBoomW tmFailW "q" (some "s") "Connection refused" rfl

/-! ### Claim C6 -/

/-- The tool-call arm either appends exactly one entry to the history or
raises; it never returns and never drops or edits existing entries. -/
lemma dispatchTool_shape (tm : ToolMap) (t i : Json) (h : List String) :
    (∃ e b, dispatchTool tm t i h = (.ok (.inr (h ++ [e])), b))
    ∨ (∃ err b, dispatchTool tm t i h = (.error err, b)) := by
  unfold dispatchTool
  split
  · exact Or.inr ⟨_, _, rfl⟩
  · cases hk : toolKeyLookup tm t with
    | none => exact Or.inl ⟨_, _, rfl⟩
    | some f =>
      show (∃ e b, runToolFn f t i h = (.ok (.inr (h ++ [e])), b))
        ∨ (∃ err b, runToolFn f t i h = (.error err, b))
      unfold runToolFn
      cases hr : f i with
      | ok r => exact Or.inl ⟨_, _, rfl⟩
      | error e => exact Or.inl ⟨_, _, rfl⟩

/-- One round body either returns a final answer, appends exactly one
history entry, or raises. -/
lemma handleParsed_shape (tm : ToolMap) (p : ParsedResponse) (h : List String) :
    (∃ t, handleParsed tm p h = (.ok (.inl t), Branch.finalB))
    ∨ (∃ e b, handleParsed tm p h = (.ok (.inr (h ++ [e])), b))
    ∨ (∃ err b, handleParsed tm p h = (.error err, b)) := by
  unfold handleParsed
  split
  · exact Or.inl ⟨_, rfl⟩
  · split
    · rcases dispatchTool_shape tm (p.tool.getD .null) (p.input.getD .null) h with
        ⟨e, b, hd⟩ | ⟨err, b, hd⟩
      · exact Or.inr (Or.inl ⟨e, b, hd⟩)
      · exact Or.inr (Or.inr ⟨err, b, hd⟩)
    · exact Or.inr (Or.inl ⟨_, _, rfl⟩)

/-- A continuing round's new history is the old one plus exactly one
entry. -/
lemma runRound_inr (llm : LLM) (tm : ToolMap) (up sys : String) (iter : Nat)
    (h h2 : List String)
    (hrr : (runRound llm tm up sys iter h).1 = .ok (.inr h2)) :
    ∃ e, h2 = h ++ [e] := by
  rcases hl : llm iter (roundMessages sys up h iter) with e | resp
  · rw [runRound_err llm tm up sys iter h e hl] at hrr
    simp at hrr
  · rw [runRound_ok llm tm up sys iter h resp hl] at hrr
    simp only at hrr
    rcases handleParsed_shape tm (parse_llm_response resp) h with
      ⟨t, hs⟩ | ⟨e, b, hs⟩ | ⟨err, b, hs⟩
    · rw [hs] at hrr
      simp at hrr
    · rw [hs] at hrr
      simp at hrr
      exact ⟨e, hrr.symm⟩
    · rw [hs] at hrr
      simp at hrr

/-- Whenever the loop reaches the forced-final call, the history grew by
at most one entry per remaining round. -/
lemma agentLoop_hist_bound (llm : LLM) (tm : ToolMap) (up sys : String) :
    ∀ (fuel iter : Nat) (h : List String),
      (agentLoop llm tm up sys fuel iter h).forced = true →
      (agentLoop llm tm up sys fuel iter h).histAtEnd.length ≤ h.length + fuel := by
  intro fuel
  induction fuel with
  | zero =>
    intro iter h _
    simp [agentLoop]
  | succ n ih =>
    intro iter h hf
    rcases hq : runRound llm tm up sys iter h with ⟨r, b⟩
    rcases r with e | v
    · rw [agentLoop_abort llm tm up sys n iter h e (by rw [hq])] at hf
      simp at hf
    · rcases v with a | h2
      · rw [agentLoop_final llm tm up sys n iter h a (by rw [hq])] at hf
        simp at hf
      · have hcont := agentLoop_continue llm tm up sys n iter h h2 (by rw [hq])
        rw [hcont] at hf ⊢
        have hle := ih (iter + 1) h2 hf
        rcases runRound_inr llm tm up sys iter h h2 (by rw [hq]) with ⟨e, he⟩
        subst he
        simp at hle ⊢
        omega

/-- Claim C6: the round log is append-only — a round either returns
without touching it, appends exactly one entry at the end, or aborts the
invocation; entries are never mutated or removed — and when the loop
reaches the forced-final call starting from the empty log, the log holds
at most `max_iterations` entries. -/
theorem C6_round_log_append_only :
    (∀ (tm : ToolMap) (p : ParsedResponse) (h : List String),
        (∃ t, (handleParsed tm p h).1 = .ok (.inl t))
        ∨ (∃ e, (handleParsed tm p h).1 = .ok (.inr (h ++ [e])))
        ∨ (∃ err, (handleParsed tm p h).1 = .error err))
    ∧ (∀ (llm : LLM) (tm : ToolMap) (up sys : String),
        (agentLoop llm tm up sys max_iterations 0 []).forced = true →
        (agentLoop llm tm up sys max_iterations 0 []).histAtEnd.length ≤ max_iterations) := by
  constructor
  · intro tm p h
    rcases handleParsed_shape tm p h with ⟨t, hs⟩ | ⟨e, b, hs⟩ | ⟨err, b, hs⟩
    · exact Or.inl ⟨t, by rw [hs]⟩
    · exact Or.inr (Or.inl ⟨e, by rw [hs]⟩)
    · exact Or.inr (Or.inr ⟨err, by rw [hs]⟩)
  · intro llm tm up sys hf
    have hb := agentLoop_hist_bound llm tm up sys max_iterations 0 [] hf
    simpa using hb

/-- Witness for C6: a run that exhausts its budget reaches the forced
final with a three-entry log. -/
theorem C6_round_log_append_only_witness :
    (agentLoop llmUnknownW tmFailW "q" "s" max_iterations 0 []).forced = true
    ∧ (agentLoop llmUnknownW tmFailW "q" "s" max_iterations 0 []).histAtEnd.length
        ≤ max_iterations :=
  ⟨rfl, C6_round_log_append_only.2 llmUnknownW tmFailW "q" "s" rfl⟩

/-! ### Claim C5 -/

/-- Claim C5: when none of the `max_iterations = 3` rounds produces a
final-answer classification (each round's outcome is a continuing step),
the loop performs exactly one forced-final model call — call number
`max_iterations`, with the forced-final messages built from the
accumulated log — and whatever raw text that call returns is returned by
`run_task` verbatim, with no further interpretation pass (the conclusion
holds for every returned text, including text that parses as a tool
call). -/
theorem C5_forced_final_verbatim (llm : LLM) (tm : ToolMap) (up : String)
    (si : Option String)
    (H : ∀ (iter : Nat) (h : List String), iter < max_iterations →
      ∃ h2, (runRound llm tm up (si.getD AGENTIC_SYSTEM_PROMPT) iter h).1
        = .ok (.inr h2)) :
    ∃ hist : List String,
      agentLoop llm tm up (si.getD AGENTIC_SYSTEM_PROMPT) max_iterations 0 []
        = { result := llm max_iterations (forcedFinalMessages up hist),
            histAtEnd := hist, forced := true }
      ∧ ∀ t, llm max_iterations (forcedFinalMessages up hist) = .ok t →
          run_task llm tm up si = t := by
  obtain ⟨h1, e1⟩ := H 0 [] (by norm_num [max_iterations])
  obtain ⟨h2, e2⟩ := H 1 h1 (by norm_num [max_iterations])
  obtain ⟨h3, e3⟩ := H 2 h2 (by norm_num [max_iterations])
  have s1 : agentLoop llm tm up (si.getD AGENTIC_SYSTEM_PROMPT) 3 0 []
      = agentLoop llm tm up (si.getD AGENTIC_SYSTEM_PROMPT) 2 1 h1 :=
    agentLoop_continue llm tm up _ 2 0 [] h1 e1
  have s2 : agentLoop llm tm up (si.getD AGENTIC_SYSTEM_PROMPT) 2 1 h1
      = agentLoop llm tm up (si.getD AGENTIC_SYSTEM_PROMPT) 1 2 h2 :=
    agentLoop_continue llm tm up _ 1 1 h1 h2 e2
  have s3 : agentLoop llm tm up (si.getD AGENTIC_SYSTEM_PROMPT) 1 2 h2
      = agentLoop llm tm up (si.getD AGENTIC_SYSTEM_PROMPT) 0 3 h3 :=
    agentLoop_continue llm tm up _ 0 2 h2 h3 e3
  have schain : agentLoop llm tm up (si.getD AGENTIC_SYSTEM_PROMPT) max_iterations 0 []
      = { result := llm max_iterations (forcedFinalMessages up h3),
          histAtEnd := h3, forced := true } := by
    show agentLoop llm tm up (si.getD AGENTIC_SYSTEM_PROMPT) 3 0 [] = _
    rw [s1, s2, s3]
    rfl
  refine ⟨h3, schain, ?_⟩
  intro t ht
  simp only [run_task]
  rw [schain]
  rw [ht]

/-- Witness for C5: the fixture client requests an unknown tool in every
round, so the budget is exhausted and the forced-final response — itself
shaped like a tool call — is returned verbatim. -/
theorem C5_forced_final_verbatim_witness :
    run_task llmUnknownW tmFailW "q" (some "s") = respUnknownW := by
  obtain ⟨hist, _, hv⟩ := C5_forced_final_verbatim llmUnknownW tmFailW "q" (some "s")
    (fun iter h _ => ⟨h ++ [unknownToolEntry (Json.str "teleporter")], rfl⟩)
  exact hv respUnknownW rfl

/-! ### Claim C8 -/

/-- Claim C8: the round-0 messages carry the user prompt in a fixed
template with no history rendering (the history argument does not occur in
the result), and the prompt of every round `n > 0` is the user prompt plus
the rendering of every accumulated round record — each record occurring
verbatim as a `- entry` line — plus the continue-or-answer instruction. -/
theorem C8_round_prompt_shape :
    (∀ (sys up : String) (h : List String),
        roundMessages sys up h 0
          = [{ role := "system", content := sys },
             { role := "user",
               content := "User question: " ++ up ++ "\n\nWhat should I do?" }])
    ∧ (∀ (up : String) (h : List String) (n : Nat), n ≠ 0 →
        roundPrompt up h n
          = "User question: " ++ up ++ "\n\n" ++ "Previous actions:\n" ++
            renderHistory h ++
            "\nWhat should I do next? If you have enough information, provide the final answer.")
    ∧ (∀ (h : List String) (e : String), e ∈ h →
        ∃ a b : List Char,
          (renderHistory h).data = a ++ ("- " ++ e ++ "\n").data ++ b) := by
  refine ⟨?_, ?_, ?_⟩
  · intro sys up h
    rfl
  · intro up h n hn
    unfold roundPrompt
    rw [if_neg hn]
  · intro h e hmem
    induction h with
    | nil => cases hmem
    | cons x xs ih =>
      rcases List.mem_cons.mp hmem with hx | hx
      · subst hx
        refine ⟨[], (renderHistory xs).data, ?_⟩
        show ("- " ++ e ++ "\n" ++ renderHistory xs).data = _
        simp [strDataAppend]
      · rcases ih hx with ⟨a, b, hab⟩
        refine ⟨("- " ++ x ++ "\n").data ++ a, b, ?_⟩
        show ("- " ++ x ++ "\n" ++ renderHistory xs).data = _
        simp [strDataAppend, hab]

/-- Witness for C8 at round 1 with a one-entry log. -/
theorem C8_round_prompt_shape_witness :
    roundPrompt "Q" ["used calculator"] 1
      = "User question: " ++ "Q" ++ "\n\n" ++ "Previous actions:\n" ++
        renderHistory ["used calculator"] ++
        "\nWhat should I do next? If you have enough information, provide the final answer."
    ∧ ∃ a b : List Char,
        (renderHistory ["used calculator"]).data
          = a ++ ("- " ++ "used calculator" ++ "\n").data ++ b :=
  ⟨C8_round_prompt_shape.2.1 "Q" ["used calculator"] 1 (by decide),
   C8_round_prompt_shape.2.2 ["used calculator"] "used calculator" (by simp)⟩

/-! ### Claim C10 -/

/-- A `try/except` whose handler always returns a string yields a string
for every body. -/
lemma pyTry_total {E : Type} (body : Except E String) (handler : E → Except E String)
    (hh : ∀ e, ∃ s, handler e = .ok s) : ∃ s, pyTry body handler = .ok s := by
  cases body with
  | ok a => exact ⟨a, rfl⟩
  | error e =>
    rcases hh e with ⟨s, hs⟩
    exact ⟨s, hs⟩

/-- Claim C10: each registered tool body returns a string for every input
and every behavior of its external collaborators — no ordinary exception
escapes, every internal failure is converted into a descriptive
error-message string — and consequently, inside `run_task`, a registered
tool that returns such an error string is logged through the tool-success
path (the truncated-output entry), not as a tool-failure record. -/
theorem C10_tools_never_raise :
    (∀ (pageO : String → Bool → Except WikiExc WikiPage)
        (searchO : String → Nat → Except WikiExc (List String)) (query : String),
        ∃ s, wikipedia_search_function pageO searchO query = .ok s)
    ∧ (∀ (V : Type) (parseO : String → Except String (ArithAst V))
        (applyBin : PyBinOp → V → V → Except String V)
        (applyUSub : V → Except String V) (intO : V → Except String V)
        (eqO : V → V → Bool) (strO : V → String) (expression : String),
        ∃ s, calculator_function parseO applyBin applyUSub intO eqO strO expression
          = .ok s)
    ∧ (∀ (matchO : String → Option (String × String × String)) (q : String),
        ∃ s, unit_converter_function matchO q = .ok s)
    ∧ (∀ (tm : ToolMap) (name : String) (input : Json) (h : List String)
        (f : ToolFn) (r : String),
        pyLookup tm name = some f → f input = .ok r →
        handleParsed tm
            { type := "tool_call", tool := some (Json.str name), input := some input } h
          = (.ok (.inr (h ++ [usedToolEntry (Json.str name) input r])), Branch.toolB)) := by
  refine ⟨?_, ?_, ?_, ?_⟩
  · intro pageO searchO query
    unfold wikipedia_search_function
    apply pyTry_total
    intro e
    cases e with
    | disambiguation options =>
      apply pyTry_total
      intro _
      exact ⟨_, rfl⟩
    | pageError =>
      apply pyTry_total
      intro _
      exact ⟨_, rfl⟩
    | other m => exact ⟨_, rfl⟩
  · intro V parseO applyBin applyUSub intO eqO strO expression
    unfold calculator_function
    apply pyTry_total
    intro e
    exact ⟨_, rfl⟩
  · intro matchO q
    unfold unit_converter_function
    apply pyTry_total
    intro e
    exact ⟨_, rfl⟩
  · intro tm name input h f r hlk hok
    show dispatchTool tm (Json.str name) input h = _
    unfold dispatchTool
    rw [if_neg (by simp [jsonHashable])]
    have hk : toolKeyLookup tm (Json.str name) = some f := by
      show pyLookup tm name = some f
      exact hlk
    rw [hk]
    show runToolFn f (Json.str name) input h = _
    unfold runToolFn
    rw [hok]

/-- Fixture: a registered tool whose callable returns a string. -/
def okToolW : ToolFn := fun _ => .ok "The result is: **4**"

/-- Witness for C10: a returning tool is logged through the success
path. -/
theorem C10_tools_never_raise_witness :
    handleParsed [("calculator", okToolW)]
        { type := "tool_call", tool := some (Json.str "calculator"),
          input := some (Json.str "2+2") } []
      = (.ok (.inr ([] ++ [usedToolEntry (Json.str "calculator") (Json.str "2+2")
            "The result is: **4**"])), Branch.toolB) :=
  C10_tools_never_raise.2.2.2 [("calculator", okToolW)] "calculator" (Json.str "2+2")
    [] okToolW "The result is: **4**" rfl rfl

end Agentic
